import Mathlib

/-!
Verification of the email-index maintenance subsystem of ram_chat.

The definitions below are a shallow embedding of the Python sources
`src/email_downloader.py`, `src/vector_store.py`, `src/email_tool.py` and
`src/app.py`.  External collaborators (the Gmail API, the Chroma vector
store, the langchain SelfQueryRetriever, the LLM) are modelled either as
explicit parameters of the embedded functions or, where the specification
fixes their contract, as definitions marked `Modelled from the spec:`.
-/

/-! ## Raw harvested items and the document normalizer
Embedding of `create_langchain_documents_from_emails`
(src/email_downloader.py lines 199-254). -/

/-- A raw email dictionary as produced by `fetch_emails_for_embedding`
(src/email_downloader.py lines 183-186): keys `id`, `sender`, `date`,
`subject`, `body`. -/
structure RawEmail where
  id : String
  sender : String
  date : String
  subject : String
  body : String
deriving DecidableEq, Repr

/-- The metadata mapping attached to each Document
(src/email_downloader.py lines 235-242).  `timestamp` is `none` when the
date string could not be parsed (Python `None`). -/
structure EmailMetadata where
  source : String
  message_id : String
  sender : String
  date_str : String
  subject : String
  timestamp : Option Int
deriving DecidableEq, Repr

/-- A langchain `Document`: page content plus metadata. -/
structure EmailDoc where
  page_content : String
  metadata : EmailMetadata
deriving DecidableEq, Repr

/-- Python `str` rendering of the optional timestamp as it is interpolated
into the f-string (`None` or the integer). -/
def pyStrOfTimestamp : Option Int → String
  | none => "None"
  | some t => toString t

/-- The page content f-string of src/email_downloader.py lines 228-234,
reproduced verbatim: the triple-quoted template starts with a newline and
twelve-space indents, so it is never the empty string. -/
def pageContentOf (e : RawEmail) (ts : Option Int) : String :=
  "\n            'sender': " ++ e.sender ++
  ",\n            'date_str': " ++ e.date ++
  ",\n            'subject': " ++ e.subject ++
  ",\n            'timestamp': " ++ pyStrOfTimestamp ts ++
  "\n            'body':" ++ e.body ++
  "\n            "

/-- One normalized Document built from a raw email
(src/email_downloader.py lines 217-243).  `parseDate` models the external
`parsedate_to_datetime` + `timestamp()` call: `none` stands for every
failure mode of the guarded `try` block (the exception is caught, a
warning is printed and `timestamp` stays `None`). -/
def docOf (parseDate : String → Option Int) (e : RawEmail) : EmailDoc :=
  let ts := parseDate e.date
  { page_content := pageContentOf e ts
    metadata :=
      { source := "gmail"
        message_id := e.id
        sender := e.sender
        date_str := e.date
        subject := e.subject
        timestamp := ts } }

/-- Embedding of `create_langchain_documents_from_emails`
(src/email_downloader.py lines 199-254).  Returns
`(documents, doc_ids, skipped_count)`.  An item is kept only when
`doc.page_content` and `email_data['id']` are both truthy (non-empty
strings, line 246); otherwise `skipped_count` is incremented (line 250). -/
def create_langchain_documents_from_emails (parseDate : String → Option Int) :
    List RawEmail → List EmailDoc × List String × Nat
  | [] => ([], [], 0)
  | e :: es =>
    let doc := docOf parseDate e
    let rest := create_langchain_documents_from_emails parseDate es
    if doc.page_content = "" ∨ e.id = "" then
      (rest.1, rest.2.1, rest.2.2 + 1)
    else
      (doc :: rest.1, e.id :: rest.2.1, rest.2.2)

/-- The page-content template always contributes literal characters, so the
assembled page content is never empty (it starts with a newline). -/
theorem pageContentOf_ne_empty (e : RawEmail) (ts : Option Int) :
    pageContentOf e ts ≠ "" := by
  intro h
  have hd := congrArg String.data h
  simp [pageContentOf, String.data_append] at hd

/-! ## The Vector Index
Modelled from the spec: the persisted Chroma collection is external library
code, so the Vector Index is embedded from its contract in the spec
(section 4.2 and the Document invariant of section 3): a persistent store of
Document records keyed by stable id, supporting upsert-by-id (replace,
never duplicate), similarity search and full metadata enumeration.
`entries` is the keyed content; `order` is the insertion order of the keys,
which fixes the enumeration order of `all_metadata`. -/
structure Index where
  entries : String → Option EmailDoc
  order : List String

/-- Modelled from the spec: a fresh empty Index (no persisted Documents). -/
def emptyIndex : Index := ⟨fun _ => none, []⟩

/-- Modelled from the spec: upsert of a single `(id, document)` pair —
"replaces any existing entry with the same id", appending the id to the
enumeration order only when it is new. -/
def upsert1 (p : String × EmailDoc) (s : Index) : Index :=
  { entries := fun k => if k = p.1 then some p.2 else s.entries k
    order := if p.1 ∈ s.order then s.order else s.order ++ [p.1] }

/-- Modelled from the spec: `add_documents(documents, ids)` — upsert of a
batch, applied pairwise in list order. -/
def upsertList (l : List (String × EmailDoc)) (s : Index) : Index :=
  match l with
  | [] => s
  | p :: ps => upsertList ps (upsert1 p s)

/-- All Documents of the Index in enumeration order. -/
def allDocs (s : Index) : List EmailDoc :=
  s.order.filterMap s.entries

/-- Modelled from the spec: `all_metadata()` — full metadata enumeration. -/
def all_metadata (s : Index) : List EmailMetadata :=
  (allDocs s).map (fun d => d.metadata)

/-- Insert a document into a list sorted by increasing distance. -/
def insertByDist (d : EmailDoc → Nat) (x : EmailDoc) : List EmailDoc → List EmailDoc
  | [] => [x]
  | y :: ys => if d x ≤ d y then x :: y :: ys else y :: insertByDist d x ys

/-- Sort documents by increasing distance (insertion sort). -/
def sortByDist (d : EmailDoc → Nat) (l : List EmailDoc) : List EmailDoc :=
  l.foldr (insertByDist d) []

/-- Modelled from the spec: `similarity_search(query_text, k)` — embed the
query, return the `k` nearest Documents by vector distance, most similar
first.  The embedding distance is the external Embedding Port, passed in
as `dist`. -/
def similaritySearch (dist : String → EmailDoc → Nat) (s : Index)
    (q : String) (k : Nat) : List EmailDoc :=
  (sortByDist (dist q) (allDocs s)).take k

/-- The value of the last pair of `l` whose key is `k`, if any: the
net effect of a batch of upserts on one key. -/
def lastLookup (l : List (String × EmailDoc)) (k : String) : Option EmailDoc :=
  match l with
  | [] => none
  | p :: ps =>
    match lastLookup ps k with
    | some v => some v
    | none => if p.1 = k then some p.2 else none

theorem entries_upsertList (l : List (String × EmailDoc)) (s : Index) (k : String) :
    (upsertList l s).entries k =
      match lastLookup l k with
      | some v => some v
      | none => s.entries k := by
  induction l generalizing s with
  | nil => rfl
  | cons p ps ih =>
    show (upsertList ps (upsert1 p s)).entries k = _
    rw [ih]
    cases h : lastLookup ps k with
    | some v => simp [lastLookup, h]
    | none =>
      by_cases hk : p.1 = k
      · subst hk
        simp [lastLookup, h, upsert1]
      · simp [lastLookup, h, hk, upsert1]
        intro hk2
        exact absurd hk2.symm hk

theorem mem_order_upsertList (l : List (String × EmailDoc)) (s : Index)
    (k : String) (h : k ∈ s.order) : k ∈ (upsertList l s).order := by
  induction l generalizing s with
  | nil => exact h
  | cons p ps ih =>
    apply ih
    simp only [upsert1]
    by_cases hp : p.1 ∈ s.order
    · simpa [hp]
    · simp [hp]
      exact Or.inl h

theorem mem_order_of_mem_upsertList (l : List (String × EmailDoc)) (s : Index)
    (p : String × EmailDoc) (h : p ∈ l) : p.1 ∈ (upsertList l s).order := by
  induction l generalizing s with
  | nil => cases h
  | cons q qs ih =>
    rcases List.mem_cons.mp h with h1 | h2
    · subst h1
      show p.1 ∈ (upsertList qs (upsert1 p s)).order
      apply mem_order_upsertList
      show p.1 ∈ (if p.1 ∈ s.order then s.order else s.order ++ [p.1])
      by_cases hp : p.1 ∈ s.order
      · simp [hp]
      · simp [hp]
    · exact ih (upsert1 q s) h2

theorem order_upsertList_noop (l : List (String × EmailDoc)) (s : Index)
    (h : ∀ p ∈ l, p.1 ∈ s.order) : (upsertList l s).order = s.order := by
  induction l generalizing s with
  | nil => rfl
  | cons p ps ih =>
    have hp : p.1 ∈ s.order := h p (List.mem_cons_self p ps)
    have horder : (upsert1 p s).order = s.order := by simp [upsert1, hp]
    show (upsertList ps (upsert1 p s)).order = s.order
    rw [ih (upsert1 p s) (fun q hq => by rw [horder]; exact h q (List.mem_cons_of_mem p hq)), horder]

theorem Index.ext2 (a b : Index) (h1 : a.entries = b.entries)
    (h2 : a.order = b.order) : a = b := by
  cases a; cases b; cases h1; cases h2; rfl

/-- Upserting the same batch a second time leaves the Index unchanged. -/
theorem upsertList_idem (l : List (String × EmailDoc)) (s : Index) :
    upsertList l (upsertList l s) = upsertList l s := by
  apply Index.ext2
  · funext k
    rw [entries_upsertList, entries_upsertList]
    cases h : lastLookup l k with
    | some v => rfl
    | none => rfl
  · exact order_upsertList_noop l (upsertList l s)
      (fun p hp => mem_order_of_mem_upsertList l s p hp)

theorem nodup_order_upsert1 (p : String × EmailDoc) (s : Index)
    (h : s.order.Nodup) : (upsert1 p s).order.Nodup := by
  simp only [upsert1]
  by_cases hp : p.1 ∈ s.order
  · simpa [hp]
  · simp only [hp, if_false]
    exact List.Nodup.append h (List.nodup_singleton p.1)
      (fun a ha hb => by simp at hb; subst hb; exact hp ha)

theorem nodup_order_upsertList (l : List (String × EmailDoc)) (s : Index)
    (h : s.order.Nodup) : (upsertList l s).order.Nodup := by
  induction l generalizing s with
  | nil => exact h
  | cons p ps ih => exact ih (upsert1 p s) (nodup_order_upsert1 p s h)

/-- C1: Upsert is idempotent: for every list of `(id, Document)` pairs,
upserting it twice yields an Index whose `similarity_search` results and
`all_metadata` enumeration are identical to upserting it once; an entry
whose id already exists is replaced, never duplicated (starting from an
empty Index the key order never holds a duplicate id). -/
theorem upsert_idempotent_c1 (dist : String → EmailDoc → Nat)
    (l : List (String × EmailDoc)) (s : Index) (q : String) (k : Nat) :
    upsertList l (upsertList l s) = upsertList l s
    ∧ similaritySearch dist (upsertList l (upsertList l s)) q k
        = similaritySearch dist (upsertList l s) q k
    ∧ all_metadata (upsertList l (upsertList l s)) = all_metadata (upsertList l s)
    ∧ (∀ i d, (upsert1 (i, d) s).entries i = some d)
    ∧ (upsertList l emptyIndex).order.Nodup := by
  refine ⟨upsertList_idem l s, ?_, ?_, ?_, ?_⟩
  · rw [upsertList_idem l s]
  · rw [upsertList_idem l s]
  · intro i d
    simp [upsert1]
  · exact nodup_order_upsertList l emptyIndex List.nodup_nil

/-! ## Normalizer lemmas (claims C3, C4, C9) -/

/-- Every document kept by the normalizer is the normalization of some
input item. -/
theorem mem_create_documents (parseDate : String → Option Int)
    (es : List RawEmail) (d : EmailDoc)
    (h : d ∈ (create_langchain_documents_from_emails parseDate es).1) :
    ∃ e ∈ es, d = docOf parseDate e := by
  induction es with
  | nil => cases h
  | cons e es ih =>
    simp only [create_langchain_documents_from_emails] at h
    by_cases hc : (docOf parseDate e).page_content = "" ∨ e.id = ""
    · rw [if_pos hc] at h
      obtain ⟨e', he', hd⟩ := ih h
      exact ⟨e', List.mem_cons_of_mem e he', hd⟩
    · rw [if_neg hc] at h
      rcases List.mem_cons.mp h with h1 | h2
      · exact ⟨e, List.mem_cons_self e es, h1⟩
      · obtain ⟨e', he', hd⟩ := ih h2
        exact ⟨e', List.mem_cons_of_mem e he', hd⟩

/-- An input item with a non-empty id is always kept (the page content is
never empty, so the keep-condition of line 246 reduces to the id check). -/
theorem docOf_mem_create_documents (parseDate : String → Option Int)
    (es : List RawEmail) (e : RawEmail) (he : e ∈ es) (hid : e.id ≠ "") :
    docOf parseDate e ∈ (create_langchain_documents_from_emails parseDate es).1 := by
  induction es with
  | nil => cases he
  | cons a as ih =>
    simp only [create_langchain_documents_from_emails]
    by_cases hc : (docOf parseDate a).page_content = "" ∨ a.id = ""
    · rw [if_pos hc]
      rcases List.mem_cons.mp he with h1 | h2
      · subst h1
        rcases hc with hc | hc
        · exact absurd hc (pageContentOf_ne_empty e (parseDate e.date))
        · exact absurd hc hid
      · exact ih h2
    · rw [if_neg hc]
      rcases List.mem_cons.mp he with h1 | h2
      · subst h1
        exact List.mem_cons_self _ _
      · exact List.mem_cons_of_mem _ (ih h2)

/-- The normalizer's id list is the list of `message_id` fields of the
documents it returns, in order. -/
theorem ids_eq_map_message_id (parseDate : String → Option Int)
    (es : List RawEmail) :
    (create_langchain_documents_from_emails parseDate es).2.1
      = (create_langchain_documents_from_emails parseDate es).1.map
          (fun d => d.metadata.message_id) := by
  induction es with
  | nil => rfl
  | cons e es ih =>
    simp only [create_langchain_documents_from_emails]
    by_cases hc : (docOf parseDate e).page_content = "" ∨ e.id = ""
    · rw [if_pos hc]
      exact ih
    · rw [if_neg hc]
      simp only [List.map_cons]
      rw [ih]
      rfl

/-- Kept documents plus skipped items account for every input item. -/
theorem length_create_documents (parseDate : String → Option Int)
    (es : List RawEmail) :
    (create_langchain_documents_from_emails parseDate es).1.length
      + (create_langchain_documents_from_emails parseDate es).2.2
      = es.length := by
  induction es with
  | nil => rfl
  | cons e es ih =>
    simp only [create_langchain_documents_from_emails]
    by_cases hc : (docOf parseDate e).page_content = "" ∨ e.id = ""
    · rw [if_pos hc]
      simp only [List.length_cons]
      omega
    · rw [if_neg hc]
      simp only [List.length_cons]
      omega

/-- The skip count is exactly the number of input items with an empty id. -/
theorem skipped_eq_empty_id_count (parseDate : String → Option Int)
    (es : List RawEmail) :
    (create_langchain_documents_from_emails parseDate es).2.2
      = (es.filter (fun e => e.id = "")).length := by
  induction es with
  | nil => rfl
  | cons e es ih =>
    simp only [create_langchain_documents_from_emails]
    by_cases hc : (docOf parseDate e).page_content = "" ∨ e.id = ""
    · rw [if_pos hc]
      rcases hc with hc | hc
      · exact absurd hc (pageContentOf_ne_empty e (parseDate e.date))
      · simp only [List.filter_cons, hc]
        simp [ih]
    · rw [if_neg hc]
      push_neg at hc
      simp only [List.filter_cons]
      rw [if_neg (by simpa using hc.2)]
      exact ih

/-- A raw item with a present id and an empty body, for exercising the
skip condition. -/
def emailEmptyBody : RawEmail :=
  { id := "m1", sender := "alice@example.com"
    date := "Tue, 6 May 2025 10:00:00 +0000", subject := "hi", body := "" }

/-- A raw item with no source-assigned id. -/
def emailNoId : RawEmail :=
  { id := "", sender := "bob@example.com"
    date := "Tue, 6 May 2025 11:00:00 +0000", subject := "yo", body := "text" }

/-- A date parser that fails on every input. -/
def parseNone : String → Option Int := fun _ => none

set_option maxRecDepth 10000 in
/-- C3 counterexample: a raw item with a source-assigned id and an empty
body is NOT skipped — the normalizer keeps it (the page content assembled
from the f-string template is never empty) and reports a skip count of
zero, contrary to the claim that it is excluded and counted. -/
theorem empty_body_not_skipped_counterexample_c3 :
    emailEmptyBody.body = "" ∧ emailEmptyBody.id ≠ "" ∧
    (create_langchain_documents_from_emails parseNone [emailEmptyBody]).2.2 = 0 ∧
    (create_langchain_documents_from_emails parseNone [emailEmptyBody]).1
      = [docOf parseNone emailEmptyBody] := by
  refine ⟨rfl, by decide, ?_, ?_⟩ <;> decide

/-- C3 (amended): an item with an empty body but a present id is still
indexed, because the assembled page content is never empty; only an item
whose id is missing (empty) is skipped and counted, and kept documents
plus the skip count account for every raw item. -/
theorem skip_counts_empty_id_only_c3 (parseDate : String → Option Int)
    (es : List RawEmail) (e : RawEmail) (he : e ∈ es) (hid : e.id ≠ "") :
    docOf parseDate e ∈ (create_langchain_documents_from_emails parseDate es).1
    ∧ (create_langchain_documents_from_emails parseDate es).1.length
        + (create_langchain_documents_from_emails parseDate es).2.2 = es.length
    ∧ (create_langchain_documents_from_emails parseDate es).2.2
        = (es.filter (fun x => x.id = "")).length :=
  ⟨docOf_mem_create_documents parseDate es e he hid,
   length_create_documents parseDate es,
   skipped_eq_empty_id_count parseDate es⟩

/-- Witness for C3 (amended) at a concrete input: an empty-body item with
an id is kept while the id-less item is the one counted as skipped. -/
theorem skip_counts_empty_id_only_c3_witness :
    emailEmptyBody ∈ [emailEmptyBody, emailNoId] ∧ emailEmptyBody.id ≠ "" ∧
    (docOf parseNone emailEmptyBody
        ∈ (create_langchain_documents_from_emails parseNone [emailEmptyBody, emailNoId]).1
      ∧ (create_langchain_documents_from_emails parseNone [emailEmptyBody, emailNoId]).1.length
          + (create_langchain_documents_from_emails parseNone [emailEmptyBody, emailNoId]).2.2
          = [emailEmptyBody, emailNoId].length
      ∧ (create_langchain_documents_from_emails parseNone [emailEmptyBody, emailNoId]).2.2
          = ([emailEmptyBody, emailNoId].filter (fun x => x.id = "")).length) :=
  ⟨List.mem_cons_self _ _, by decide,
   skip_counts_empty_id_only_c3 parseNone [emailEmptyBody, emailNoId] emailEmptyBody
     (List.mem_cons_self _ _) (by decide)⟩

/-- C4: a raw item whose date string cannot be parsed is still normalized
and indexed — the per-item `try`/`except` keeps the exception from
propagating (the embedded normalizer is total), the `timestamp` metadata
field is absent (`none`) and `date_str` retains the raw date string
unchanged. -/
theorem unparsable_date_still_indexed_c4 (parseDate : String → Option Int)
    (es : List RawEmail) (e : RawEmail) (he : e ∈ es) (hid : e.id ≠ "")
    (hdate : parseDate e.date = none) :
    docOf parseDate e ∈ (create_langchain_documents_from_emails parseDate es).1
    ∧ (docOf parseDate e).metadata.timestamp = none
    ∧ (docOf parseDate e).metadata.date_str = e.date := by
  refine ⟨docOf_mem_create_documents parseDate es e he hid, ?_, rfl⟩
  simp [docOf, hdate]

/-- A raw item carrying an unparsable date string. -/
def emailBadDate : RawEmail :=
  { id := "m4", sender := "carol@example.com"
    date := "not a real date", subject := "subject", body := "the body" }

/-- Witness for C4 at a concrete input. -/
theorem unparsable_date_still_indexed_c4_witness :
    emailBadDate ∈ [emailBadDate] ∧ emailBadDate.id ≠ ""
    ∧ parseNone emailBadDate.date = none
    ∧ (docOf parseNone emailBadDate
          ∈ (create_langchain_documents_from_emails parseNone [emailBadDate]).1
        ∧ (docOf parseNone emailBadDate).metadata.timestamp = none
        ∧ (docOf parseNone emailBadDate).metadata.date_str = emailBadDate.date) :=
  ⟨List.mem_cons_self _ _, by decide, rfl,
   unparsable_date_still_indexed_c4 parseNone [emailBadDate] emailBadDate
     (List.mem_cons_self _ _) (by decide) rfl⟩

/-- C9: the normalizer's outputs are parallel and key-consistent: the
documents and doc_ids lists have equal length, `doc_ids[i]` equals
`documents[i].metadata.message_id` at every position, and every kept
document's `source` metadata is `"gmail"`. -/
theorem documents_ids_parallel_c9 (parseDate : String → Option Int)
    (es : List RawEmail) :
    (create_langchain_documents_from_emails parseDate es).1.length
      = (create_langchain_documents_from_emails parseDate es).2.1.length
    ∧ (∀ i (h1 : i < (create_langchain_documents_from_emails parseDate es).1.length)
         (h2 : i < (create_langchain_documents_from_emails parseDate es).2.1.length),
         (create_langchain_documents_from_emails parseDate es).2.1[i]
           = ((create_langchain_documents_from_emails parseDate es).1[i]).metadata.message_id)
    ∧ ∀ d ∈ (create_langchain_documents_from_emails parseDate es).1,
        d.metadata.source = "gmail" := by
  refine ⟨?_, ?_, ?_⟩
  · rw [ids_eq_map_message_id]
    simp
  · intro i h1 h2
    rw [List.getElem_of_eq (ids_eq_map_message_id parseDate es) h2, List.getElem_map]
  · intro d hd
    obtain ⟨e, _, rfl⟩ := mem_create_documents parseDate es d hd
    rfl

/-- Witness for C9 at a concrete input (position 0 of a one-item batch). -/
theorem documents_ids_parallel_c9_witness :
    (0 < (create_langchain_documents_from_emails parseNone [emailBadDate]).1.length)
    ∧ (0 < (create_langchain_documents_from_emails parseNone [emailBadDate]).2.1.length)
    ∧ (create_langchain_documents_from_emails parseNone [emailBadDate]).2.1.get ⟨0, by decide⟩
      = ((create_langchain_documents_from_emails parseNone [emailBadDate]).1.get
          ⟨0, by decide⟩).metadata.message_id :=
  ⟨by decide, by decide,
   (documents_ids_parallel_c9 parseNone [emailBadDate]).2.1 0 (by decide) (by decide)⟩

/-! ## Retrieval strategies and the self-query fallback (claim C2)
Embedding of `get_email_standard_retriever` and
`get_email_self_query_retriever` (src/vector_store.py lines 217-254) and of
the email tool wrapper `invoke_email_rag_chain`
(src/email_tool.py lines 58-100). -/

/-- `config.NUMBER_OF_EMAILS_RETRIEVED` (src/config.py line 62). -/
def NUMBER_OF_EMAILS_RETRIEVED : Nat := 15

/-- A retriever: a query either yields a ranked document list or raises an
exception (`Except.error` models a raised Python exception). -/
def Retriever : Type := String → Except String (List EmailDoc)

/-- Embedding of `get_email_standard_retriever`
(src/vector_store.py lines 217-222): fixed-K similarity search, no filter,
never raises. -/
def get_email_standard_retriever (dist : String → EmailDoc → Nat)
    (store : Index) : Retriever :=
  fun q => .ok (similaritySearch dist store q NUMBER_OF_EMAILS_RETRIEVED)

/-- `similarity_search` restricted to documents whose metadata satisfies
the structured filter. -/
def similaritySearchFiltered (dist : String → EmailDoc → Nat) (s : Index)
    (q : String) (k : Nat) (f : EmailMetadata → Bool) : List EmailDoc :=
  (sortByDist (dist q) ((allDocs s).filter (fun d => f d.metadata))).take k

/-- Model of the retriever object produced by the external
`SelfQueryRetriever.from_llm` (langchain): on each query it runs the
filter-construction step `cf` (the auxiliary LLM translation of the query
into a structured metadata predicate, a single attempt) and then performs
the filtered similarity search; a filter-construction failure is raised to
the caller — the external retriever has no internal fallback, and the
repository code (src/vector_store.py lines 234-254) installs no per-query
handler around it. -/
def selfQueryRetrieverOf (dist : String → EmailDoc → Nat) (store : Index)
    (cf : String → Except String (EmailMetadata → Bool)) : Retriever :=
  fun q =>
    match cf q with
    | .ok f => .ok (similaritySearchFiltered dist store q NUMBER_OF_EMAILS_RETRIEVED f)
    | .error e => .error e

/-- Embedding of `get_email_self_query_retriever`
(src/vector_store.py lines 224-254): the `try`/`except` wraps only the
construction of the retriever object (`SelfQueryRetriever.from_llm`);
`constructionOk = false` models `from_llm` raising, in which case the
function falls back to the standard retriever. -/
def get_email_self_query_retriever (dist : String → EmailDoc → Nat)
    (store : Index) (cf : String → Except String (EmailMetadata → Bool))
    (constructionOk : Bool) : Retriever :=
  if constructionOk then selfQueryRetrieverOf dist store cf
  else get_email_standard_retriever dist store

/-- What the agent calling the email tool observes: an answer built from
the retrieved context, or an error string (never a raised exception). -/
inductive ToolOutcome where
  | answer (context : List EmailDoc)
  | errorMsg (msg : String)
deriving DecidableEq, Repr

/-- Embedding of `invoke_email_rag_chain` (src/email_tool.py lines 58-100):
the retrieval chain is invoked inside `try`/`except Exception`; any raised
exception is converted into the string
`"Error invoking Email RAG chain: <e>"` returned as the tool's answer. -/
def invoke_email_rag_chain (r : Retriever) (q : String) : ToolOutcome :=
  match r q with
  | .ok ds => .answer ds
  | .error e => .errorMsg ("Error invoking Email RAG chain: " ++ e)

/-- A constant embedding distance, a one-document store and an
always-failing filter-construction step, for the C2 counterexample. -/
def distZero : String → EmailDoc → Nat := fun _ _ => 0

/-- The single document of the counterexample store. -/
def docM1 : EmailDoc := docOf parseNone emailEmptyBody

/-- A store holding exactly one document under id `"m1"`. -/
def storeM1 : Index := upsertList [("m1", docM1)] emptyIndex

/-- A per-query filter-construction step that always fails. -/
def cfFail : String → Except String (EmailMetadata → Bool) :=
  fun _ => .error "filter construction failed"

set_option maxRecDepth 10000 in
/-- C2 counterexample: with the self-query retriever successfully
constructed but the per-query filter-construction step failing, the
retrieval raises, the Standard strategy returns the stored document, and
the caller of the email tool observes an error answer — not the Standard
strategy's results.  This refutes the claim that a filter-construction
failure is transparently converted into the Standard results. -/
theorem self_query_no_per_query_fallback_counterexample_c2 :
    selfQueryRetrieverOf distZero storeM1 cfFail "q"
      = .error "filter construction failed"
    ∧ get_email_standard_retriever distZero storeM1 "q" = .ok [docM1]
    ∧ invoke_email_rag_chain
        (get_email_self_query_retriever distZero storeM1 cfFail true) "q"
      = .errorMsg "Error invoking Email RAG chain: filter construction failed"
    ∧ invoke_email_rag_chain
        (get_email_self_query_retriever distZero storeM1 cfFail true) "q"
      ≠ .answer [docM1] := by
  refine ⟨rfl, ?_, rfl, ?_⟩
  · show Except.ok (similaritySearch distZero storeM1 "q" 15) = Except.ok [docM1]
    exact congrArg Except.ok (by decide)
  · intro h
    cases h

/-- C2 (amended): the fallback exists only at retriever-construction time —
when `SelfQueryRetriever.from_llm` fails, the selector returns the Standard
retriever, so every query yields exactly the Standard results with no
error; a per-query filter-construction failure instead propagates out of
the retriever and is caught by the email tool wrapper, which returns an
error string as the answer (the caller observes no exception, but an error
answer rather than Standard results). -/
theorem self_query_fallback_amended_c2 (dist : String → EmailDoc → Nat)
    (store : Index) (cf : String → Except String (EmailMetadata → Bool))
    (q : String) :
    get_email_self_query_retriever dist store cf false
      = get_email_standard_retriever dist store
    ∧ (∀ e, cf q = .error e →
        invoke_email_rag_chain
          (get_email_self_query_retriever dist store cf true) q
          = .errorMsg ("Error invoking Email RAG chain: " ++ e))
    ∧ (∀ r : Retriever,
        (∃ ds, invoke_email_rag_chain r q = .answer ds)
        ∨ (∃ e, invoke_email_rag_chain r q = .errorMsg e)) := by
  refine ⟨rfl, ?_, ?_⟩
  · intro e he
    show invoke_email_rag_chain (selfQueryRetrieverOf dist store cf) q = _
    simp [invoke_email_rag_chain, selfQueryRetrieverOf, he]
  · intro r
    cases h : r q with
    | ok ds => exact Or.inl ⟨ds, by simp [invoke_email_rag_chain, h]⟩
    | error e =>
      exact Or.inr ⟨"Error invoking Email RAG chain: " ++ e,
        by simp [invoke_email_rag_chain, h]⟩

/-- Witness for C2 (amended) at a concrete input: construction failure
falls back to Standard, and a per-query failure becomes an error answer. -/
theorem self_query_fallback_amended_c2_witness :
    cfFail "q" = .error "filter construction failed"
    ∧ (get_email_self_query_retriever distZero storeM1 cfFail false
        = get_email_standard_retriever distZero storeM1
      ∧ invoke_email_rag_chain
          (get_email_self_query_retriever distZero storeM1 cfFail true) "q"
        = .errorMsg ("Error invoking Email RAG chain: " ++ "filter construction failed")) :=
  ⟨rfl,
   (self_query_fallback_amended_c2 distZero storeM1 cfFail "q").1,
   (self_query_fallback_amended_c2 distZero storeM1 cfFail "q").2.1
     "filter construction failed" rfl⟩

/-! ## The Source Harvester and the maintenance operations
Embedding of `fetch_emails_for_embedding` (src/email_downloader.py lines
127-196), `update_email_vector_store_manual` (src/vector_store.py lines
257-304) and the rebuild branch of `initialize_email_vector_store`
(src/vector_store.py lines 84-122). -/

/-- Outcome of one Gmail harvest attempt: either the structured email
dictionaries, or an HTTP (auth/network) error raised by the API client. -/
inductive HarvestOutcome where
  | ok (emails : List RawEmail)
  | httpError (msg : String)
deriving DecidableEq, Repr

/-- Embedding of `fetch_emails_for_embedding`
(src/email_downloader.py lines 127-196) at the granularity the claims
need: on success it returns the list of structured email dictionaries; on
an `HttpError` or any other exception — whether raised in `list_messages`
(lines 84-89, which returns `None`, making `fetch` return `[]` at line
138) or in the fetch loop itself (lines 189-196) — the error is caught,
printed, and the EMPTY list is returned.  The function never raises. -/
def fetch_emails_for_embedding : HarvestOutcome → List RawEmail
  | .ok es => es
  | .httpError _ => []

/-- The external effects and pre-state of one
`update_email_vector_store_manual` call.  `loadExc`/`addExc` model an
exception raised while loading the Chroma store / while embedding and
writing the batch (`some msg` = raised); `store` is the persisted index
contents before the call; `sinceDate` is the formatted
`now - days_to_check` date interpolated into the query and messages. -/
structure UpdateEnv where
  persistDir : String
  dirExists : Bool
  loadExc : Option String
  authOk : Bool
  harvest : HarvestOutcome
  parseDate : String → Option Int
  addExc : Option String
  store : Index
  sinceDate : String

/-- src/vector_store.py line 263. -/
def updateNotFoundMsg (dir : String) : String :=
  "Error: Vector store directory not found at " ++ dir ++ ". Cannot update."

/-- src/vector_store.py line 280. -/
def updateAuthFailMsg : String := "Update failed: Gmail authentication failed."

/-- src/vector_store.py line 284. -/
def updateNoNewMsg (d : String) : String := "No new emails found since " ++ d ++ "."

/-- src/vector_store.py line 290. -/
def updateNoValidMsg : String :=
  "Fetched emails, but no valid new documents were created to add."

/-- src/vector_store.py line 297. -/
def updateAddedMsg (n : Nat) : String :=
  "Successfully added/updated " ++ toString n ++ " email documents."

/-- src/vector_store.py line 303. -/
def updateErrMsg (e : String) : String :=
  "An error occurred during the update: " ++ e

/-- Embedding of `update_email_vector_store_manual`
(src/vector_store.py lines 257-304).  Returns the `(ok, detail)` pair and
the post-call persisted store contents.  The body follows the source line
by line: missing directory check (262), store load inside the outer
`try` (268), authentication (278), harvest (282), empty-result check
(283), normalization (287), empty-documents check (289), batch
`add_documents` keyed by the doc ids (294), success message (297); any
exception inside the `try` is caught at line 299 and reported as a
failure, leaving the store as it was. -/
def update_email_vector_store_manual (env : UpdateEnv) : (Bool × String) × Index :=
  if env.dirExists = false then
    ((false, updateNotFoundMsg env.persistDir), env.store)
  else match env.loadExc with
  | some e => ((false, updateErrMsg e), env.store)
  | none =>
    if env.authOk = false then
      ((false, updateAuthFailMsg), env.store)
    else
      let emails := fetch_emails_for_embedding env.harvest
      if emails = [] then
        ((true, updateNoNewMsg env.sinceDate), env.store)
      else
        let r := create_langchain_documents_from_emails env.parseDate emails
        if r.1 = [] then
          ((true, updateNoValidMsg), env.store)
        else match env.addExc with
        | some e => ((false, updateErrMsg e), env.store)
        | none =>
          ((true, updateAddedMsg r.1.length), upsertList (r.2.1.zip r.1) env.store)

/-- C10: when the persisted index directory does not exist, the manual
update returns the failure pair immediately with the store untouched; the
result depends only on `persistDir` and the pre-call store — not on
authentication, harvesting or anything downstream — so the manual update
never bootstraps an index. -/
theorem update_requires_existing_dir_c10 (env : UpdateEnv)
    (h : env.dirExists = false) :
    update_email_vector_store_manual env
      = ((false, updateNotFoundMsg env.persistDir), env.store) := by
  simp [update_email_vector_store_manual, h]

/-- A concrete environment whose index directory is missing. -/
def envDirMissing : UpdateEnv :=
  { persistDir := "./chroma_db_emails_google_text_embedding_004"
    dirExists := false
    loadExc := none
    authOk := true
    harvest := .ok [emailBadDate]
    parseDate := parseNone
    addExc := none
    store := emptyIndex
    sinceDate := "2025/05/01" }

/-- Witness for C10 at a concrete input. -/
theorem update_requires_existing_dir_c10_witness :
    envDirMissing.dirExists = false
    ∧ update_email_vector_store_manual envDirMissing
        = ((false, updateNotFoundMsg envDirMissing.persistDir), envDirMissing.store) :=
  ⟨rfl, update_requires_existing_dir_c10 envDirMissing rfl⟩

/-- C6 counterexample: with authentication succeeding but the harvester
failing with an HTTP (auth/network) error, the manual update returns a
SUCCESS result `(ok: true, "No new emails found since …")` — the failure
is swallowed into an empty email list inside the harvester, so it is never
surfaced to the operator as a failure result, contrary to the claim. -/
def envHttpFail6 : UpdateEnv :=
  { persistDir := "./chroma_db_emails_google_text_embedding_004"
    dirExists := true
    loadExc := none
    authOk := true
    harvest := .httpError "HttpError 503 backendError"
    parseDate := parseNone
    addExc := none
    store := emptyIndex
    sinceDate := "2025/05/01" }

/-- C6 counterexample theorem (see `envHttpFail6`): the harvest fails with
an auth/network error yet the update reports `ok = true`. -/
theorem harvest_error_reported_as_success_counterexample_c6 :
    envHttpFail6.harvest = .httpError "HttpError 503 backendError"
    ∧ (update_email_vector_store_manual envHttpFail6).1
        = (true, updateNoNewMsg "2025/05/01")
    ∧ (update_email_vector_store_manual envHttpFail6).1.1 ≠ false := by
  refine ⟨rfl, rfl, ?_⟩
  intro h
  cases h

/-- C6 (amended): only an authentication failure aborts the manual update
with a failure result (surfaced verbatim); a harvester HTTP (auth/network)
error during listing/fetching is caught inside the harvester, which
returns an empty list, so the update reports success ("no new emails") for
that failure mode — in both cases the store is untouched. -/
theorem harvest_failure_surfacing_c6_amended (env : UpdateEnv)
    (hdir : env.dirExists = true) (hload : env.loadExc = none) :
    (env.authOk = false →
      (update_email_vector_store_manual env).1 = (false, updateAuthFailMsg)
      ∧ (update_email_vector_store_manual env).2 = env.store)
    ∧ (∀ m, env.authOk = true → env.harvest = .httpError m →
      (update_email_vector_store_manual env).1 = (true, updateNoNewMsg env.sinceDate)
      ∧ (update_email_vector_store_manual env).2 = env.store) := by
  constructor
  · intro hauth
    constructor <;> simp [update_email_vector_store_manual, hdir, hload, hauth]
  · intro m hauth hh
    constructor <;>
      simp [update_email_vector_store_manual, hdir, hload, hauth,
        fetch_emails_for_embedding, hh]

/-- A concrete environment whose authentication fails. -/
def envAuthFail : UpdateEnv :=
  { persistDir := "./chroma_db_emails_google_text_embedding_004"
    dirExists := true
    loadExc := none
    authOk := false
    harvest := .ok [emailBadDate]
    parseDate := parseNone
    addExc := none
    store := emptyIndex
    sinceDate := "2025/05/01" }

/-- Witness for C6 (amended) at concrete inputs: both clauses are
exercised — the auth failure surfaces as a failure result and the
harvester HTTP error surfaces as a success result. -/
theorem harvest_failure_surfacing_c6_amended_witness :
    (envAuthFail.dirExists = true ∧ envAuthFail.loadExc = none
      ∧ envAuthFail.authOk = false
      ∧ ((update_email_vector_store_manual envAuthFail).1 = (false, updateAuthFailMsg)
        ∧ (update_email_vector_store_manual envAuthFail).2 = envAuthFail.store))
    ∧ (envHttpFail6.dirExists = true ∧ envHttpFail6.loadExc = none
      ∧ envHttpFail6.authOk = true
      ∧ envHttpFail6.harvest = .httpError "HttpError 503 backendError"
      ∧ ((update_email_vector_store_manual envHttpFail6).1
            = (true, updateNoNewMsg envHttpFail6.sinceDate)
        ∧ (update_email_vector_store_manual envHttpFail6).2 = envHttpFail6.store)) :=
  ⟨⟨rfl, rfl, rfl,
    (harvest_failure_surfacing_c6_amended envAuthFail rfl rfl).1 rfl⟩,
   ⟨rfl, rfl, rfl, rfl,
    (harvest_failure_surfacing_c6_amended envHttpFail6 rfl rfl).2
      "HttpError 503 backendError" rfl rfl⟩⟩

/-- A concrete environment for the C5 counterexample: a whole-batch
harvest failure with a non-empty pre-call store. -/
def envHttpFail5 : UpdateEnv :=
  { persistDir := "./chroma_db_emails_google_text_embedding_004"
    dirExists := true
    loadExc := none
    authOk := true
    harvest := .httpError "network unreachable"
    parseDate := parseNone
    addExc := none
    store := storeM1
    sinceDate := "2025/05/02" }

set_option maxRecDepth 10000 in
/-- C5 counterexample: when harvesting of the whole batch fails, the index
contents are indeed identical to the pre-call state, but the update does
NOT report failure — it reports success `(ok: true, "No new emails found
since …")`, refuting the claim's "update reports failure" clause. -/
theorem batch_failure_reported_as_success_counterexample_c5 :
    envHttpFail5.harvest = .httpError "network unreachable"
    ∧ (update_email_vector_store_manual envHttpFail5).2 = envHttpFail5.store
    ∧ (update_email_vector_store_manual envHttpFail5).1
        = (true, updateNoNewMsg "2025/05/02")
    ∧ (update_email_vector_store_manual envHttpFail5).1.1 = true := by
  exact ⟨rfl, rfl, rfl, rfl⟩

/-- C5 (amended): the index write is invoked only after the entire fetched
batch has been normalized — the post-call store is either exactly the
pre-call store, or exactly the pre-call store upserted with the complete
normalized batch (with the success-count result); on an authentication
failure the update reports failure with the store unchanged; on an
exception while loading the store it reports failure with the caught
error message and the store unchanged; but a whole-batch harvest HTTP
error, while also leaving the store unchanged, is reported as success
("no new emails"), not failure. -/
theorem update_full_batch_only_c5_amended (env : UpdateEnv) :
    ((update_email_vector_store_manual env).2 = env.store
      ∨ ((update_email_vector_store_manual env).2
            = upsertList
                ((create_langchain_documents_from_emails env.parseDate
                    (fetch_emails_for_embedding env.harvest)).2.1.zip
                  (create_langchain_documents_from_emails env.parseDate
                    (fetch_emails_for_embedding env.harvest)).1)
                env.store
          ∧ (update_email_vector_store_manual env).1
              = (true, updateAddedMsg
                  (create_langchain_documents_from_emails env.parseDate
                    (fetch_emails_for_embedding env.harvest)).1.length)))
    ∧ (env.dirExists = true → env.loadExc = none → env.authOk = false →
        (update_email_vector_store_manual env).1.1 = false
        ∧ (update_email_vector_store_manual env).2 = env.store)
    ∧ (∀ e, env.dirExists = true → env.loadExc = some e →
        (update_email_vector_store_manual env).1 = (false, updateErrMsg e)
        ∧ (update_email_vector_store_manual env).2 = env.store)
    ∧ (∀ m, env.dirExists = true → env.loadExc = none → env.authOk = true →
        env.harvest = .httpError m →
        (update_email_vector_store_manual env).2 = env.store
        ∧ (update_email_vector_store_manual env).1
            = (true, updateNoNewMsg env.sinceDate)) := by
  refine ⟨?_, ?_, ?_, ?_⟩
  · by_cases h1 : env.dirExists = false
    · exact Or.inl (by simp [update_email_vector_store_manual, h1])
    · cases h2 : env.loadExc with
      | some e => exact Or.inl (by simp [update_email_vector_store_manual, h1, h2])
      | none =>
        by_cases h3 : env.authOk = false
        · exact Or.inl (by simp [update_email_vector_store_manual, h1, h2, h3])
        · by_cases h4 : fetch_emails_for_embedding env.harvest = []
          · exact Or.inl (by simp [update_email_vector_store_manual, h1, h2, h3, h4])
          · by_cases h5 : (create_langchain_documents_from_emails env.parseDate
              (fetch_emails_for_embedding env.harvest)).1 = []
            · exact Or.inl (by simp [update_email_vector_store_manual, h1, h2, h3, h4, h5])
            · cases h6 : env.addExc with
              | some e =>
                exact Or.inl (by simp [update_email_vector_store_manual, h1, h2, h3, h4, h5, h6])
              | none =>
                refine Or.inr ⟨?_, ?_⟩ <;>
                  simp [update_email_vector_store_manual, h1, h2, h3, h4, h5, h6]
  · intro hdir hload hauth
    constructor <;> simp [update_email_vector_store_manual, hdir, hload, hauth]
  · intro e hdir hload
    constructor <;> simp [update_email_vector_store_manual, hdir, hload]
  · intro m hdir hload hauth hh
    constructor <;>
      simp [update_email_vector_store_manual, hdir, hload, hauth,
        fetch_emails_for_embedding, hh]

/-- A concrete environment whose store load raises an exception. -/
def envLoadExc : UpdateEnv :=
  { persistDir := "./chroma_db_emails_google_text_embedding_004"
    dirExists := true
    loadExc := some "sqlite disk I/O error"
    authOk := true
    harvest := .ok [emailBadDate]
    parseDate := parseNone
    addExc := none
    store := emptyIndex
    sinceDate := "2025/05/01" }

/-- Witness for C5 (amended) at concrete inputs: an authentication failure
and a store-load exception both report failure with the store unchanged. -/
theorem update_full_batch_only_c5_amended_witness :
    (envAuthFail.dirExists = true ∧ envAuthFail.loadExc = none
      ∧ envAuthFail.authOk = false
      ∧ ((update_email_vector_store_manual envAuthFail).1.1 = false
        ∧ (update_email_vector_store_manual envAuthFail).2 = envAuthFail.store))
    ∧ (envLoadExc.dirExists = true
      ∧ envLoadExc.loadExc = some "sqlite disk I/O error"
      ∧ ((update_email_vector_store_manual envLoadExc).1
            = (false, updateErrMsg "sqlite disk I/O error")
        ∧ (update_email_vector_store_manual envLoadExc).2 = envLoadExc.store)) :=
  ⟨⟨rfl, rfl, rfl,
    (update_full_batch_only_c5_amended envAuthFail).2.1 rfl rfl rfl⟩,
   ⟨rfl, rfl,
    (update_full_batch_only_c5_amended envLoadExc).2.2.1
      "sqlite disk I/O error" rfl rfl⟩⟩

/-- The three operator-visible outcome states of a manual update. -/
inductive UpdateClass where
  | added
  | noNew
  | failed
deriving DecidableEq, Repr

/-- How an `(ok, detail)` pair exhibits one of the three states:
success with a positive added/updated count, success with no new items
(either of the two no-op messages), or failure. -/
def ResultMatches (since : String) (r : Bool × String) : UpdateClass → Prop
  | .added => ∃ n, 0 < n ∧ r = (true, updateAddedMsg n)
  | .noNew => r = (true, updateNoNewMsg since) ∨ r = (true, updateNoValidMsg)
  | .failed => r.1 = false

theorem updateAddedMsg_ne_noNewMsg (n : Nat) (d : String) :
    updateAddedMsg n ≠ updateNoNewMsg d := by
  intro h
  have hd := congrArg String.data h
  simp [updateAddedMsg, updateNoNewMsg, String.data_append] at hd

theorem updateAddedMsg_ne_noValidMsg (n : Nat) :
    updateAddedMsg n ≠ updateNoValidMsg := by
  intro h
  have hd := congrArg String.data h
  simp [updateAddedMsg, updateNoValidMsg, String.data_append] at hd

theorem exu_failed (since : String) (r : Bool × String) (h : r.1 = false) :
    ∃! c, ResultMatches since r c := by
  refine ⟨.failed, h, ?_⟩
  intro y hy
  cases y with
  | added =>
    obtain ⟨n, _, hr⟩ := hy
    rw [hr] at h
    cases h
  | noNew =>
    rcases hy with hr | hr <;> (rw [hr] at h; cases h)
  | failed => rfl

theorem exu_noNew (since : String) (r : Bool × String)
    (h : r = (true, updateNoNewMsg since) ∨ r = (true, updateNoValidMsg)) :
    ∃! c, ResultMatches since r c := by
  refine ⟨.noNew, h, ?_⟩
  intro y hy
  cases y with
  | added =>
    obtain ⟨n, _, hr⟩ := hy
    rcases h with h | h <;> rw [hr] at h
    · exact absurd (congrArg Prod.snd h) (updateAddedMsg_ne_noNewMsg n since)
    · exact absurd (congrArg Prod.snd h) (updateAddedMsg_ne_noValidMsg n)
  | noNew => rfl
  | failed =>
    rcases h with h | h <;> (rw [h] at hy; cases hy)

theorem exu_added (since : String) (r : Bool × String) (n : Nat)
    (hn : 0 < n) (h : r = (true, updateAddedMsg n)) :
    ∃! c, ResultMatches since r c := by
  refine ⟨.added, ⟨n, hn, h⟩, ?_⟩
  intro y hy
  cases y with
  | added => rfl
  | noNew =>
    rcases hy with hy | hy <;> rw [h] at hy
    · exact absurd (congrArg Prod.snd hy) (updateAddedMsg_ne_noNewMsg n since)
    · exact absurd (congrArg Prod.snd hy) (updateAddedMsg_ne_noValidMsg n)
  | failed =>
    rw [h] at hy
    cases hy

/-- C8: the operator-invoked manual update always returns an `(ok, detail)`
pair falling into EXACTLY one of three operator-distinguishable states:
success with a positive added/updated count, success with no new items, or
failure with a reason. -/
theorem update_tri_state_c8 (env : UpdateEnv) :
    ∃! c : UpdateClass,
      ResultMatches env.sinceDate (update_email_vector_store_manual env).1 c := by
  by_cases h1 : env.dirExists = false
  · exact exu_failed _ _ (by simp [update_email_vector_store_manual, h1])
  · cases h2 : env.loadExc with
    | some e =>
      exact exu_failed _ _ (by simp [update_email_vector_store_manual, h1, h2])
    | none =>
      by_cases h3 : env.authOk = false
      · exact exu_failed _ _ (by simp [update_email_vector_store_manual, h1, h2, h3])
      · by_cases h4 : fetch_emails_for_embedding env.harvest = []
        · exact exu_noNew _ _
            (Or.inl (by simp [update_email_vector_store_manual, h1, h2, h3, h4]))
        · by_cases h5 : (create_langchain_documents_from_emails env.parseDate
            (fetch_emails_for_embedding env.harvest)).1 = []
          · exact exu_noNew _ _
              (Or.inr (by simp [update_email_vector_store_manual, h1, h2, h3, h4, h5]))
          · cases h6 : env.addExc with
            | some e =>
              exact exu_failed _ _
                (by simp [update_email_vector_store_manual, h1, h2, h3, h4, h5, h6])
            | none =>
              exact exu_added _ _
                (create_langchain_documents_from_emails env.parseDate
                  (fetch_emails_for_embedding env.harvest)).1.length
                (List.length_pos.mpr h5)
                (by simp [update_email_vector_store_manual, h1, h2, h3, h4, h5, h6])

/-- Witness for C8 at a concrete input (the auth-failure environment). -/
theorem update_tri_state_c8_witness :
    ∃! c : UpdateClass,
      ResultMatches envAuthFail.sinceDate
        (update_email_vector_store_manual envAuthFail).1 c :=
  update_tri_state_c8 envAuthFail

/-- The external effects and pre-state of the rebuild branch of
`initialize_email_vector_store` (src/vector_store.py lines 84-122, taken
with `config.REBUILD_EMAIL_VECTOR_STORE = True`).  `priorDisk` is the
persisted index present at the configured location before the call
(`none` = absent); `downloaderAvailable` models the import guard of lines
18-24 and 91. -/
structure RebuildEnv where
  priorDisk : Option Index
  downloaderAvailable : Bool
  authOk : Bool
  harvest : HarvestOutcome
  parseDate : String → Option Int

/-- Outcome of a rebuild: either the process halts (`st.error` followed by
`st.stop()`), or a store object is returned. -/
inductive RebuildResult where
  | halted (msg : String)
  | ready (store : Index)

/-- The state of the configured persist location after a call:
`dirPresent` is whether the directory exists on disk, `index` is the
index data that has been written into it, if any.  During a rebuild,
`shutil.rmtree` removes the directory and `os.makedirs` immediately
re-creates it empty (src/vector_store.py lines 86-89), so on the halted
paths the directory is present but holds no index data. -/
structure DiskState where
  dirPresent : Bool
  index : Option Index

/-- Embedding of the rebuild branch of `initialize_email_vector_store`
(src/vector_store.py lines 84-122).  The first thing the branch does is
`shutil.rmtree` the existing persisted index and `os.makedirs` the empty
directory (lines 86-89) — before the downloader check, authentication and
harvest — so `priorDisk` is never consulted and the result is independent
of it.  The second component is the on-disk state after the call: on the
halted paths (downloader import missing, lines 119-122, or `st.stop()` on
auth failure, lines 115-118) the re-created directory is present but no
index data has been written into it.  On a successful harvest the store is
built with `Chroma.from_documents` keyed by the doc ids (lines 101-106);
with no emails (including a swallowed harvester HTTP error) or no valid
documents, a fresh EMPTY store is created and persisted (lines 108-114). -/
def rebuild_email_vector_store (env : RebuildEnv) : RebuildResult × DiskState :=
  if env.downloaderAvailable = false then
    (.halted "Email downloader functions not available. Cannot rebuild store.",
     ⟨true, none⟩)
  else if env.authOk = false then
    (.halted "Gmail authentication failed. Cannot rebuild email store.",
     ⟨true, none⟩)
  else
    let emails := fetch_emails_for_embedding env.harvest
    if emails = [] then
      (.ready emptyIndex, ⟨true, some emptyIndex⟩)
    else
      let r := create_langchain_documents_from_emails env.parseDate emails
      if r.1 = [] then
        (.ready emptyIndex, ⟨true, some emptyIndex⟩)
      else
        let s := upsertList (r.2.1.zip r.1) emptyIndex
        (.ready s, ⟨true, some s⟩)

theorem lastLookup_mem (l : List (String × EmailDoc)) (k : String)
    (v : EmailDoc) (h : lastLookup l k = some v) : (k, v) ∈ l := by
  induction l with
  | nil => cases h
  | cons p ps ih =>
    simp only [lastLookup] at h
    cases hl : lastLookup ps k with
    | some w =>
      rw [hl] at h
      cases h
      exact List.mem_cons_of_mem _ (ih hl)
    | none =>
      rw [hl] at h
      by_cases hk : p.1 = k
      · rw [if_pos hk] at h
        injection h with h2
        subst h2
        have hp : p = (k, p.2) := by rw [← hk]
        exact hp ▸ List.mem_cons_self _ _
      · rw [if_neg hk] at h
        cases h

/-- Every document of an index built from scratch by a batch upsert comes
from the batch. -/
theorem mem_allDocs_upsertList_empty (l : List (String × EmailDoc))
    (d : EmailDoc) (h : d ∈ allDocs (upsertList l emptyIndex)) :
    ∃ k, (k, d) ∈ l := by
  simp only [allDocs, List.mem_filterMap] at h
  obtain ⟨k, _, he⟩ := h
  rw [entries_upsertList] at he
  cases hl : lastLookup l k with
  | some v =>
    rw [hl] at he
    cases he
    exact ⟨k, lastLookup_mem l k d hl⟩
  | none =>
    rw [hl] at he
    cases he

/-- A concrete rebuild environment whose harvester fails with an HTTP
error after a prior index existed and authentication succeeded. -/
def envRebuildHttpFail : RebuildEnv :=
  { priorDisk := some storeM1
    downloaderAvailable := true
    authOk := true
    harvest := .httpError "HttpError 503 backendError"
    parseDate := parseNone }

/-- C7 counterexample: when the harvester fails with an auth/network error
(after successful authentication), the rebuild does NOT leave the system
without a usable index — the swallowed error yields an empty harvest, and
a fresh, usable, loadable EMPTY index is created, persisted and returned
as a success, refuting the claim's "after a failed rebuild no usable index
remains". -/
theorem rebuild_harvest_error_usable_index_counterexample_c7 :
    envRebuildHttpFail.harvest = .httpError "HttpError 503 backendError"
    ∧ rebuild_email_vector_store envRebuildHttpFail
        = (.ready emptyIndex, ⟨true, some emptyIndex⟩)
    ∧ (rebuild_email_vector_store envRebuildHttpFail).2.index ≠ none := by
  refine ⟨rfl, rfl, ?_⟩
  intro h
  cases h

/-- C7 (amended): the rebuild discards any existing persisted index before
fetching from the source — its outcome is entirely independent of the
prior index, which is never restored, and any index a rebuild does produce
contains only documents normalized from the current harvest.  When
authentication (or the downloader import) fails after the destruction, the
process halts with no index data written (the persist directory has been
re-created empty by `os.makedirs`); but when the harvester itself fails
with an HTTP error, the error is swallowed into an empty harvest and the
rebuild produces and persists a fresh usable EMPTY index, reported as
success. -/
theorem rebuild_prior_discarded_c7_amended (env : RebuildEnv) :
    (∀ p, rebuild_email_vector_store { env with priorDisk := p }
        = rebuild_email_vector_store env)
    ∧ (env.downloaderAvailable = true → env.authOk = false →
        rebuild_email_vector_store env
          = (.halted "Gmail authentication failed. Cannot rebuild email store.",
             ⟨true, none⟩))
    ∧ (∀ m, env.downloaderAvailable = true → env.authOk = true →
        env.harvest = .httpError m →
        rebuild_email_vector_store env
          = (.ready emptyIndex, ⟨true, some emptyIndex⟩))
    ∧ (∀ s, (rebuild_email_vector_store env).2.index = some s →
        ∀ d ∈ allDocs s,
          ∃ e ∈ fetch_emails_for_embedding env.harvest, d = docOf env.parseDate e) := by
  refine ⟨fun p => rfl, ?_, ?_, ?_⟩
  · intro hdl hauth
    simp [rebuild_email_vector_store, hdl, hauth]
  · intro m hdl hauth hh
    simp [rebuild_email_vector_store, hdl, hauth, fetch_emails_for_embedding, hh]
  · intro s hs d hd
    by_cases h1 : env.downloaderAvailable = false
    · simp [rebuild_email_vector_store, h1] at hs
    · by_cases h2 : env.authOk = false
      · simp [rebuild_email_vector_store, h1, h2] at hs
      · by_cases h3 : fetch_emails_for_embedding env.harvest = []
        · simp [rebuild_email_vector_store, h1, h2, h3] at hs
          rw [← hs] at hd
          simp [allDocs, emptyIndex] at hd
        · by_cases h4 : (create_langchain_documents_from_emails env.parseDate
            (fetch_emails_for_embedding env.harvest)).1 = []
          · simp [rebuild_email_vector_store, h1, h2, h3, h4] at hs
            rw [← hs] at hd
            simp [allDocs, emptyIndex] at hd
          · have hs2 : s = upsertList
                ((create_langchain_documents_from_emails env.parseDate
                    (fetch_emails_for_embedding env.harvest)).2.1.zip
                  (create_langchain_documents_from_emails env.parseDate
                    (fetch_emails_for_embedding env.harvest)).1)
                emptyIndex := by
              have := hs
              simp [rebuild_email_vector_store, h1, h2, h3, h4] at this
              exact this.symm
            rw [hs2] at hd
            obtain ⟨k, hk⟩ := mem_allDocs_upsertList_empty _ d hd
            have hdmem : d ∈ (create_langchain_documents_from_emails env.parseDate
                (fetch_emails_for_embedding env.harvest)).1 :=
              (List.of_mem_zip hk).2
            exact mem_create_documents _ _ d hdmem

/-- A concrete rebuild environment whose authentication fails. -/
def envRebuildAuthFail : RebuildEnv :=
  { priorDisk := some storeM1
    downloaderAvailable := true
    authOk := false
    harvest := .ok [emailBadDate]
    parseDate := parseNone }

/-- Witness for C7 (amended) at concrete inputs: an auth-failed rebuild
halts with no index data written although a prior index existed, and a
harvester-HTTP-failed rebuild persists a usable empty index. -/
theorem rebuild_prior_discarded_c7_amended_witness :
    (envRebuildAuthFail.downloaderAvailable = true
      ∧ envRebuildAuthFail.authOk = false
      ∧ rebuild_email_vector_store envRebuildAuthFail
          = (.halted "Gmail authentication failed. Cannot rebuild email store.",
             ⟨true, none⟩))
    ∧ (envRebuildHttpFail.downloaderAvailable = true
      ∧ envRebuildHttpFail.authOk = true
      ∧ envRebuildHttpFail.harvest = .httpError "HttpError 503 backendError"
      ∧ rebuild_email_vector_store envRebuildHttpFail
          = (.ready emptyIndex, ⟨true, some emptyIndex⟩)) :=
  ⟨⟨rfl, rfl,
    (rebuild_prior_discarded_c7_amended envRebuildAuthFail).2.1 rfl rfl⟩,
   ⟨rfl, rfl, rfl,
    (rebuild_prior_discarded_c7_amended envRebuildHttpFail).2.2.1
      "HttpError 503 backendError" rfl rfl rfl⟩⟩
